import Mathlib

/-!
Verification of the conan recipe `recipes/gmp/all/conanfile.py` (class `GmpConan`).

The recipe is a thin wrapper: it declares build options, removes options that do
not apply to the host platform, validates the configuration, translates options
to `./configure` flags, invokes the external autotools build, and publishes
consumption metadata.  We embed the option bookkeeping and the per-method
behaviour shallowly:

* conan option values are modelled as strings (conan stores option values
  stringly; `"True"`/`"False"`/`"None"`/numbers), and the option set of a
  recipe instance as an association list from option name to value;
* `del self.options.X` fails when `X` is not a currently declared option
  (conan raises a ConanException saying the option does not exist), while
  `self.options.rm_safe("X")` never fails; `self.options.X` (attribute read)
  fails on an undeclared option, while `self.options.get_safe("X", default)`
  returns the default instead;
* each recipe method that mutates or reads the option set is embedded as a
  function on the environment returning the resulting environment together
  with the first error raised, if any; statements after the first error are
  not executed (Python fail-stop semantics).
-/

namespace GmpSpec

/-- A conan option environment: option name to current value, in declaration
order.  Values are the string forms conan stores: "True", "False", "None",
"0", "reentrant", ... -/
abbrev OptEnv := List (String × String)

/-- Errors surfaced by the embedded recipe methods.
`invalidConfiguration` models `conan.errors.ConanInvalidConfiguration`;
`optionNotFound` models the `ConanException` conan raises when an undeclared
option is accessed or deleted. -/
inductive ConanErr where
  | invalidConfiguration (msg : String)
  | optionNotFound (name : String)
deriving Repr, DecidableEq

/-- First value bound to a key in the environment (Python dict/namespace lookup). -/
def lookupOpt : OptEnv → String → Option String
  | [], _ => none
  | (k, v) :: t, q => if q == k then some v else lookupOpt t q

/-- Whether an option is currently declared. -/
def hasOption (e : OptEnv) (k : String) : Bool :=
  (lookupOpt e k).isSome

/-- The keys of the environment, in order. -/
def keysOf (e : OptEnv) : List String :=
  e.map Prod.fst

/-- Truthiness of a conan option value, for the values this recipe declares:
Python/conan treat `"False"`, `"None"`, `"0"` and the empty string as false
and every other declared value as true. -/
def truthy (v : String) : Bool :=
  !(v == "False" || v == "None" || v == "0" || v == "")

/-- Truthiness of an optional value; an absent value (`None`) is false.  This is
what `if self.options.get_safe("X"):` evaluates. -/
def truthyOpt : Option String → Bool
  | none => false
  | some v => truthy v

/-- Model of `self.options.rm_safe("k")`: remove the option if present, never fail. -/
def rmSafe (k : String) (e : OptEnv) : OptEnv :=
  e.filter (fun p => p.1 != k)

/-- Model of `del self.options.k`: remove the option, failing if it is not declared. -/
def delOption (k : String) (e : OptEnv) : Except ConanErr OptEnv :=
  if hasOption e k then Except.ok (rmSafe k e)
  else Except.error (ConanErr.optionNotFound k)

/-- Model of `self.options.k` (plain attribute read): the value, failing if the option
is not declared. -/
def getOption (e : OptEnv) (k : String) : Except ConanErr String :=
  match lookupOpt e k with
  | some v => Except.ok v
  | none => Except.error (ConanErr.optionNotFound k)

/-- Model of `self.options.get_safe("k", default)` with a string-modelled default:
the value if declared, the default otherwise. -/
def getSafeD (e : OptEnv) (k : String) (d : String) : String :=
  (lookupOpt e k).getD d

/-- The `options` class attribute (conanfile.py lines 35-60): each declared
option with its admissible values.  Note the declared names are `assembly`,
`cxx` and `fat` (not `enable_assembly`, `enable_cxx`, `enable_fat`). -/
def options : List (String × List String) :=
  [("shared", ["True", "False"]),
   ("fPIC", ["True", "False"]),
   ("assembly", ["True", "False"]),
   ("cxx", ["True", "False"]),
   ("fat", ["True", "False"]),
   ("alloca", ["alloca", "malloc-reentrant", "malloc-notreentrant",
               "reentrant", "notreentrant", "debug"]),
   ("fft", ["True", "False"]),
   ("old_fft_full", ["True", "False"]),
   ("assertions", ["True", "False"]),
   ("profiling", ["prof", "gprof", "instrument", "None"]),
   ("nails", "True" :: (List.range 64).map (fun n => toString n)),
   ("minithres", ["True", "False"]),
   ("fake_cpuid", ["True", "False"]),
   ("maintainer_mode", ["True", "False"]),
   ("with_aix_soname", ["aix", "svr4", "both"]),
   ("with_gnu_ld", ["True", "False"]),
   ("run_checks", ["True", "False"])]

/-- The names of the declared options, in declaration order. -/
def declaredNames : List String :=
  options.map Prod.fst

/-- The `default_options` class attribute (conanfile.py lines 62-80). -/
def default_options : OptEnv :=
  [("shared", "False"),
   ("fPIC", "False"),
   ("assembly", "True"),
   ("cxx", "False"),
   ("fat", "False"),
   ("alloca", "reentrant"),
   ("fft", "True"),
   ("old_fft_full", "False"),
   ("assertions", "False"),
   ("profiling", "None"),
   ("nails", "0"),
   ("minithres", "False"),
   ("fake_cpuid", "False"),
   ("maintainer_mode", "False"),
   ("with_aix_soname", "aix"),
   ("with_gnu_ld", "False"),
   ("run_checks", "True")]

/-- An option environment over the declared options with the C++ support
option `cxx` enabled and every other option at its default. -/
def options_cxx_enabled : OptEnv :=
  [("shared", "False"),
   ("fPIC", "False"),
   ("assembly", "True"),
   ("cxx", "True"),
   ("fat", "False"),
   ("alloca", "reentrant"),
   ("fft", "True"),
   ("old_fft_full", "False"),
   ("assertions", "False"),
   ("profiling", "None"),
   ("nails", "0"),
   ("minithres", "False"),
   ("fake_cpuid", "False"),
   ("maintainer_mode", "False"),
   ("with_aix_soname", "aix"),
   ("with_gnu_ld", "False"),
   ("run_checks", "True")]

/-- The default option environment without its final entry (`run_checks`):
`default_options` is definitionally this list with `("run_checks", "True")`
appended. -/
def options_common_base : OptEnv :=
  [("shared", "False"),
   ("fPIC", "False"),
   ("assembly", "True"),
   ("cxx", "False"),
   ("fat", "False"),
   ("alloca", "reentrant"),
   ("fft", "True"),
   ("old_fft_full", "False"),
   ("assertions", "False"),
   ("profiling", "None"),
   ("nails", "0"),
   ("minithres", "False"),
   ("fake_cpuid", "False"),
   ("maintainer_mode", "False"),
   ("with_aix_soname", "aix"),
   ("with_gnu_ld", "False")]

/-- The default option environment with `run_checks` turned off: it differs
from `default_options` only in the value of `run_checks`. -/
def options_run_checks_off : OptEnv :=
  options_common_base ++ [("run_checks", "False")]

/-- The settings this recipe consults: `os`, `arch`, `compiler`
(`build_type` is never read by the embedded methods). -/
structure Settings where
  os : String
  arch : String
  compiler : String
deriving Repr, DecidableEq

/-- Model of `conan.tools.microsoft.is_msvc`: the compiler setting is MSVC
(`msvc`, or the legacy `Visual Studio`). -/
def is_msvc (s : Settings) : Bool :=
  s.compiler == "msvc" || s.compiler == "Visual Studio"

/-- Model of `conan.tools.apple.is_apple_os`: the os setting is an Apple OS. -/
def is_apple_os (s : Settings) : Bool :=
  s.os == "Macos" || s.os == "iOS" || s.os == "watchOS" || s.os == "tvOS" || s.os == "visionOS"

/-- Second statement of `GmpConan.config_options` (conanfile.py lines
338-339), reached only when the first statement did not raise: when the arch
is neither `x86` nor `x86_64`, `del self.options.enable_fat`.  A failing
`del` leaves the environment unchanged. -/
def config_options_arch (s : Settings) (e1 : OptEnv) : OptEnv × Option ConanErr :=
  if s.arch == "x86" || s.arch == "x86_64" then (e1, none)
  else
    match delOption "enable_fat" e1 with
    | Except.ok e2 => (e2, none)
    | Except.error err => (e1, some err)

/-- Embedding of `GmpConan.config_options` (conanfile.py lines 335-339), fail-stop:
on Windows `del self.options.fPIC`; then the arch-conditioned deletion of
`enable_fat`.  A failing `del` leaves the environment unchanged and aborts
the method. -/
def config_options (s : Settings) (e : OptEnv) : OptEnv × Option ConanErr :=
  if s.os == "Windows" then
    match delOption "fPIC" e with
    | Except.ok e1 => config_options_arch s e1
    | Except.error err => (e, some err)
  else config_options_arch s e

/-- Third statement of `GmpConan.configure` (conanfile.py lines 346-348),
reached only when the earlier statements did not raise:
`if not self.options.enable_cxx: ...`.  The branch body touches only
settings (`compiler.libcxx`, `compiler.cppstd`), not options, but the
condition itself reads the (undeclared) option `enable_cxx`. -/
def configure_cxx (e2 : OptEnv) : OptEnv × Option ConanErr :=
  match getOption e2 "enable_cxx" with
  | Except.error err => (e2, some err)
  | Except.ok _ => (e2, none)

/-- Second statement of `GmpConan.configure` (conanfile.py lines 344-345),
then the third: `if self.options.get_safe("enable_fat"):
del self.options.enable_assembly`. -/
def configure_fat (e1 : OptEnv) : OptEnv × Option ConanErr :=
  if truthyOpt (lookupOpt e1 "enable_fat") then
    match delOption "enable_assembly" e1 with
    | Except.ok e2 => configure_cxx e2
    | Except.error err => (e1, some err)
  else configure_cxx e1

/-- Embedding of `GmpConan.configure` (conanfile.py lines 341-348), fail-stop:
`if self.options.shared: self.options.rm_safe("fPIC")`, then the
`enable_fat` and `enable_cxx` statements. -/
def configure (e : OptEnv) : OptEnv × Option ConanErr :=
  match getOption e "shared" with
  | Except.error err => (e, some err)
  | Except.ok sh => configure_fat (if truthy sh then rmSafe "fPIC" e else e)

/-- Embedding of `GmpConan.package_id` (conanfile.py lines 353-354):
`del self.info.options.run_checks`, on the package-id copy of the options. -/
def package_id (info : OptEnv) : OptEnv × Option ConanErr :=
  match delOption "run_checks" info with
  | Except.ok e => (e, none)
  | Except.error err => (info, some err)

/-- The message of the `ConanInvalidConfiguration` raised by `validate`
(conanfile.py lines 358-360), as a function of `self.ref`. -/
def invalid_cfg_msg (ref : String) : String :=
  ref ++ " cannot be built as a shared library using Visual Studio: some error occurs at link time"

/-- Embedding of `GmpConan.validate` (conanfile.py lines 356-360):
`if is_msvc(self) and self.options.shared: raise ConanInvalidConfiguration(...)`.
Python evaluates `is_msvc(self)` first and short-circuits, so
`self.options.shared` is only read under MSVC. -/
def validate (ref : String) (s : Settings) (e : OptEnv) : Except ConanErr Unit :=
  if is_msvc s then
    match getOption e "shared" with
    | Except.error err => Except.error err
    | Except.ok sh =>
      if truthy sh then Except.error (ConanErr.invalidConfiguration (invalid_cfg_msg ref))
      else Except.ok ()
  else Except.ok ()

/-- The helper `yes_no` defined inside `GmpConan.generate`
(conanfile.py lines 384-385). -/
def yes_no (b : Bool) : String :=
  if b then "yes" else "no"

/-- Embedding of `GmpConan.generate`, restricted to the configure arguments it builds
(conanfile.py lines 390-408), fail-stop.  The four `tc.configure_args`
entries of lines 391-396 evaluate in order: `--with-pic` from
`get_safe("fPIC", True)`, `--enable-assembly` from
`get_safe("enable_assembly", False)`, `--enable-fat` from
`get_safe("enable_fat", False)`, then `--enable-cxx` from the plain read
`self.options.enable_cxx`, which fails when `enable_cxx` is undeclared; the
arguments already built are retained at the failure point.  On success the
Windows `--srcdir` entry (lines 399-400) and the MSVC cache entries (lines
403-408) follow; the rest of `generate` sets environment variables only and
adds no configure argument. -/
def generate (s : Settings) (e : OptEnv) : List String × Option ConanErr :=
  let a1 := "--with-pic=" ++ yes_no (truthy (getSafeD e "fPIC" "True"))
  let a2 := "--enable-assembly=" ++ yes_no (truthy (getSafeD e "enable_assembly" "False"))
  let a3 := "--enable-fat=" ++ yes_no (truthy (getSafeD e "enable_fat" "False"))
  match getOption e "enable_cxx" with
  | Except.error err => ([a1, a2, a3], some err)
  | Except.ok cxxv =>
    let base := [a1, a2, a3, "--enable-cxx=" ++ yes_no (truthy cxxv)]
    let base := if s.os == "Windows" then base ++ ["--srcdir=../src"] else base
    let base :=
      if is_msvc s then
        base ++ ["ac_cv_c_restrict=restrict", "gmp_cv_asm_label_suffix=:",
                 "lt_cv_sys_global_symbol_pipe=cat"]
      else base
    (base, none)

/-- External build commands the recipe can invoke through
`conan.tools.gnu.Autotools`: `autotools.configure()` and
`autotools.make(target=...)`. -/
inductive Cmd where
  | configureCmd
  | make (target : Option String)
deriving Repr, DecidableEq

/-- Embedding of `GmpConan.build` (conanfile.py lines 442-449), as the sequence of external
commands it issues together with the first recipe-level error: it always runs
`autotools.configure()` then `autotools.make()`, then reads
`self.options.run_checks` and, when that is true, runs
`autotools.make(target="check")`. -/
def build_cmds (e : OptEnv) : List Cmd × Option ConanErr :=
  match getOption e "run_checks" with
  | Except.error err => ([Cmd.configureCmd, Cmd.make none], some err)
  | Except.ok rc =>
    if truthy rc then
      ([Cmd.configureCmd, Cmd.make none, Cmd.make (some "check")], none)
    else
      ([Cmd.configureCmd, Cmd.make none], none)

/-- Run of `GmpConan.build` against an oracle giving each external command its
result (`conanfile.py` lines 442-449 contain no `try`/`except`): commands run
in order, the first failing command aborts the method and its error is
returned as-is (`Sum.inr`); a recipe-level option error is `Sum.inl`.
The first component is the list of commands actually invoked. -/
def build_run {ε : Type} (e : OptEnv) (ext : Cmd → Except ε Unit) :
    List Cmd × Option (ConanErr ⊕ ε) :=
  match ext Cmd.configureCmd with
  | Except.error m => ([Cmd.configureCmd], some (Sum.inr m))
  | Except.ok _ =>
    match ext (Cmd.make none) with
    | Except.error m => ([Cmd.configureCmd, Cmd.make none], some (Sum.inr m))
    | Except.ok _ =>
      match getOption e "run_checks" with
      | Except.error err => ([Cmd.configureCmd, Cmd.make none], some (Sum.inl err))
      | Except.ok rc =>
        if truthy rc then
          match ext (Cmd.make (some "check")) with
          | Except.error m =>
            ([Cmd.configureCmd, Cmd.make none, Cmd.make (some "check")], some (Sum.inr m))
          | Except.ok _ =>
            ([Cmd.configureCmd, Cmd.make none, Cmd.make (some "check")], none)
        else ([Cmd.configureCmd, Cmd.make none], none)

/-- Embedding of `GmpConan.source` (conanfile.py lines 379-381): a single call to
`conan.tools.files.get`; its result, error or not, is the result of the method
(there is no handler). -/
def source_run {ε : Type} (fetch : Except ε Unit) : Except ε Unit :=
  fetch

/-- An oracle of external-command results in which `./configure` fails and
everything else succeeds. -/
def ext_fail_configure : Cmd → Except String Unit :=
  fun c =>
    match c with
    | Cmd.configureCmd => Except.error "configure exited with status 1"
    | _ => Except.ok ()

/-- Modelled from the documented conan lifecycle: `validate()` runs before
`build()`, and `build()` is the only recipe method that invokes the external
configure/make commands.  The external commands that get issued when the
lifecycle reaches `build`: none when `validate` raised. -/
def cmds_after_validate (ref : String) (s : Settings) (e : OptEnv) : List Cmd :=
  match validate ref s e with
  | Except.error _ => []
  | Except.ok _ => (build_cmds e).1

/-- The constant `stat.S_IEXEC` (owner execute bit), 0o100. -/
def S_IEXEC : Nat := 64

/-- The mode `GmpConan._patch_sources` installs on the fetched `configure`
script (conanfile.py line 440): `configure_stats.st_mode | stat.S_IEXEC`. -/
def chmodMode (st_mode : Nat) : Nat :=
  st_mode ||| S_IEXEC

/-- Actions performed by `GmpConan.build` (including `_patch_sources`):
applying the conandata patches, the chmod of the configure script (recording
the mode installed), and running an external command. -/
inductive Action where
  | applyPatches
  | chmod (mode : Nat)
  | run (c : Cmd)
deriving Repr, DecidableEq

/-- Whether an action is a chmod. -/
def Action.isChmod : Action → Bool
  | Action.chmod _ => true
  | _ => false

/-- Embedding of `GmpConan._patch_sources` (conanfile.py lines 434-440):
`apply_conandata_patches`, then, only on Apple platforms, chmod of the
fetched `configure` script to its old mode or-ed with `stat.S_IEXEC`.
`st_mode` is the mode `os.stat` reports for the script. -/
def patch_sources_actions (s : Settings) (st_mode : Nat) : List Action :=
  [Action.applyPatches] ++ (if is_apple_os s then [Action.chmod (chmodMode st_mode)] else [])

/-- Embedding of `GmpConan.build` (conanfile.py lines 442-449) as an action trace:
`_patch_sources` first, then the external commands of `build_cmds`. -/
def build_actions (s : Settings) (st_mode : Nat) (e : OptEnv) : List Action × Option ConanErr :=
  let bc := build_cmds e
  (patch_sources_actions s st_mode ++ bc.1.map Action.run, bc.2)

/-- Published metadata of one component of `self.cpp_info`
(the parts `GmpConan.package_info` touches). -/
structure Component where
  pkg_config_name : Option String := none
  libs : List String := []
  requires : List String := []
  system_libs : List String := []
  cmake_find_package : Option String := none
  cmake_find_package_multi : Option String := none
deriving Repr, DecidableEq

/-- Published metadata of `self.cpp_info` as `GmpConan.package_info` shapes it:
the top-level pkg_config property and legacy name, the always-present
`libgmp` component, and the optional `gmpxx` component (absent when never
created). -/
structure CppInfo where
  pkg_config_name : Option String := none
  names_pkg_config : Option String := none
  libgmp : Component := {}
  gmpxx : Option Component := none
deriving Repr, DecidableEq

/-- Embedding of `GmpConan.package_info` (conanfile.py lines 461-481), fail-stop: it sets
the top-level pkg_config name and the `libgmp` component metadata
unconditionally (lines 463-466), then evaluates
`if self.options.enable_cxx:` (line 467), which fails when `enable_cxx` is
undeclared; the metadata set before the failure is the state at the failure
point.  On success the gmpxx component (lines 468-472), the legacy cmake/
pkg_config names (lines 476-478) and the gmpxx legacy names under a second
`enable_cxx` test (lines 479-481) follow. -/
def package_info (s : Settings) (e : OptEnv) : CppInfo × Option ConanErr :=
  let ci0 : CppInfo := { pkg_config_name := some "gmp-all-do-not-use" }
  let gmpComp : Component := { ci0.libgmp with pkg_config_name := some "gmp", libs := ["gmp"] }
  let ci1 : CppInfo := { ci0 with libgmp := gmpComp }
  match getOption e "enable_cxx" with
  | Except.error err => (ci1, some err)
  | Except.ok cxxv =>
    let gmpxxComp : Component :=
      { pkg_config_name := some "gmpxx", libs := ["gmpxx"], requires := ["libgmp"],
        system_libs := if s.os != "Windows" then ["m"] else [] }
    let ci2 := if truthy cxxv then { ci1 with gmpxx := some gmpxxComp } else ci1
    let gmpComp2 : Component :=
      { ci2.libgmp with cmake_find_package := some "GMP", cmake_find_package_multi := some "GMP" }
    let ci3 := { ci2 with names_pkg_config := some "gmp-all-do-not-use", libgmp := gmpComp2 }
    let addNames : Component → Component := fun g =>
      { g with cmake_find_package := some "GMPXX", cmake_find_package_multi := some "GMPXX" }
    let ci4 := if truthy cxxv then { ci3 with gmpxx := ci3.gmpxx.map addNames } else ci3
    (ci4, none)

/-- The fragment of the Python expression grammar needed for the for-target of
the `options_description` dict comprehension (conanfile.py line 88):
names, 2-tuples, and single-argument calls. -/
inductive PyExpr where
  | name (s : String)
  | pair (a b : PyExpr)
  | call (f : PyExpr) (arg : PyExpr)
deriving Repr, DecidableEq

/-- Compile-time rule of Python for assignment targets (for-targets included):
a name is a target, a tuple of targets is a target, and a call expression is
never a target — CPython reports `SyntaxError: cannot assign to function
call` when one appears. -/
def isTarget : PyExpr → Bool
  | PyExpr.name _ => true
  | PyExpr.pair a b => isTarget a && isTarget b
  | PyExpr.call _ _ => false

/-- The for-target of the `options_description` comprehension, transcribed
from conanfile.py line 88:
`for option, _format_description(description) in ...items()`. -/
def options_description_for_target : PyExpr :=
  PyExpr.pair (PyExpr.name "option")
    (PyExpr.call (PyExpr.name "_format_description") (PyExpr.name "description"))

/-- Whether the `GmpConan` class body compiles: Python compiles the whole
module (the dict comprehension of line 88 included) before executing it, so
the body compiles exactly when the for-target of the comprehension is a valid
assignment target. -/
def class_body_compiles : Bool :=
  isTarget options_description_for_target

/-- Loading the module `conanfile.py`: compilation precedes execution, so an
invalid assignment target anywhere in the file makes the import fail with a
SyntaxError before any statement runs. -/
def load_module : Except String Unit :=
  if class_body_compiles then Except.ok ()
  else Except.error "SyntaxError: cannot assign to function call"

/-- Values arising while evaluating the first statement of
`GmpConan._format_description`: Python strings and bound methods of a
string. -/
inductive PyVal where
  | str (s : String)
  | boundMethod (recv : String) (meth : String)
deriving Repr, DecidableEq

/-- The `str` methods relevant to `_format_description`: `str` has `strip`,
`split`, `rsplit`, `lstrip`, `rstrip` and `splitlines` — but no `lsplit`. -/
def strMethodNames : List String :=
  ["strip", "split", "rsplit", "lstrip", "rstrip", "splitlines"]

/-- The attributes a bound-method object exposes (none of the `str` methods
among them). -/
def boundMethodAttrNames : List String :=
  ["__call__", "__self__", "__func__", "__name__"]

/-- Python attribute lookup on the values of `PyVal`: looking up a method name
on a string yields the bound method; anything else raises `AttributeError`. -/
def pyGetattr : PyVal → String → Except String PyVal
  | PyVal.str s, a =>
    if a ∈ strMethodNames then Except.ok (PyVal.boundMethod s a)
    else Except.error ("AttributeError: str object has no attribute " ++ a)
  | PyVal.boundMethod r m, a =>
    if a ∈ boundMethodAttrNames then Except.ok (PyVal.boundMethod r (m ++ "." ++ a))
    else Except.error ("AttributeError: method object has no attribute " ++ a)

/-- The first statement of `GmpConan._format_description`
(conanfile.py line 84) up to its failure point: the right-hand side
`description.strip.lsplit(...)` first evaluates the attribute access
`description.strip` (the `strip` method is not called — no parentheses),
then looks up `lsplit` on the resulting bound-method object. -/
def format_description_first_stmt (description : String) : Except String PyVal :=
  match pyGetattr (PyVal.str description) "strip" with
  | Except.error err => Except.error err
  | Except.ok v => pyGetattr v "lsplit"

/-! ### Helper lemmas about the option environment -/

theorem lookupOpt_rmSafe_self (e : OptEnv) (k : String) :
    lookupOpt (rmSafe k e) k = none := by
  induction e with
  | nil => rfl
  | cons p t ih =>
    rcases p with ⟨pk, pv⟩
    by_cases hk : pk = k
    · subst hk
      simpa [rmSafe, List.filter_cons] using ih
    · have hne : (pk != k) = true := by simp [bne, hk]
      simp [rmSafe, List.filter_cons, hne, lookupOpt, Ne.symm hk] at ih ⊢
      simpa [rmSafe] using ih

theorem lookupOpt_rmSafe_ne (e : OptEnv) (k q : String) (h : q ≠ k) :
    lookupOpt (rmSafe k e) q = lookupOpt e q := by
  induction e with
  | nil => rfl
  | cons p t ih =>
    rcases p with ⟨pk, pv⟩
    by_cases hk : pk = k
    · subst hk
      have hq : (q == pk) = false := by simp [h]
      simp [rmSafe, List.filter_cons, lookupOpt, hq] at ih ⊢
      simpa [rmSafe] using ih
    · have hne : (pk != k) = true := by simp [bne, hk]
      by_cases hq : q = pk
      · subst hq
        simp [rmSafe, List.filter_cons, hne, lookupOpt]
      · have hq' : (q == pk) = false := by simp [hq]
        simp [rmSafe, List.filter_cons, hne, lookupOpt, hq'] at ih ⊢
        simpa [rmSafe] using ih

theorem lookupOpt_rmSafe_none (e : OptEnv) (j k : String) (h : lookupOpt e k = none) :
    lookupOpt (rmSafe j e) k = none := by
  by_cases hk : k = j
  · subst hk; exact lookupOpt_rmSafe_self e k
  · rw [lookupOpt_rmSafe_ne e j k hk]; exact h

theorem hasOption_rmSafe_self (e : OptEnv) (k : String) :
    hasOption (rmSafe k e) k = false := by
  simp [hasOption, lookupOpt_rmSafe_self]

theorem hasOption_rmSafe_false (e : OptEnv) (j k : String) (h : hasOption e k = false) :
    hasOption (rmSafe j e) k = false := by
  have h' : lookupOpt e k = none := by
    cases hl : lookupOpt e k with
    | none => rfl
    | some v => simp [hasOption, hl] at h
  simp [hasOption, lookupOpt_rmSafe_none e j k h']

theorem getOption_eq_ok (e : OptEnv) (k v : String) (h : lookupOpt e k = some v) :
    getOption e k = Except.ok v := by
  simp [getOption, h]

theorem getOption_eq_error (e : OptEnv) (k : String) (h : lookupOpt e k = none) :
    getOption e k = Except.error (ConanErr.optionNotFound k) := by
  simp [getOption, h]

theorem lookupOpt_eq_none_of_not_mem (e : OptEnv) (k : String) (h : k ∉ keysOf e) :
    lookupOpt e k = none := by
  induction e with
  | nil => rfl
  | cons p t ih =>
    rcases p with ⟨pk, pv⟩
    simp [keysOf] at h
    have hk : (k == pk) = false := by simp [h.1]
    simp [lookupOpt, hk]
    exact ih (by simp [keysOf, h.2])

theorem lookupOpt_concat_ne (e : OptEnv) (k v q : String) (h : q ≠ k) :
    lookupOpt (e ++ [(k, v)]) q = lookupOpt e q := by
  induction e with
  | nil => simp [lookupOpt, h]
  | cons p t ih =>
    rcases p with ⟨pk, pv⟩
    by_cases hq : q = pk
    · subst hq; simp [lookupOpt]
    · have hq' : (q == pk) = false := by simp [hq]
      simp [lookupOpt, hq', ih]

/-! ### Claim theorems -/

/-- C2 (code bug): the claim says the `GmpConan` class body evaluates and the
module loads.  In fact the for-target of the `options_description` dict
comprehension (line 88) contains the call `_format_description(description)`,
which Python rejects at compile time, so importing the module fails with a
SyntaxError before anything runs; independently, the first statement of
`_format_description` (line 84) accesses `description.strip` without calling
it and then looks up the nonexistent attribute `lsplit`, which would raise
`AttributeError`. -/
theorem c2_class_body_does_not_load :
    load_module = Except.error "SyntaxError: cannot assign to function call" ∧
    isTarget options_description_for_target = false ∧
    format_description_first_stmt "Build shared libraries." =
      Except.error "AttributeError: method object has no attribute lsplit" :=
  ⟨rfl, rfl, rfl⟩

/-- C3 counterexample: the claim says every option `config_options` deletes is
declared in `options`, and that `generate` reads it back with the declared
default.  But `config_options` deletes `enable_fat`, which is not a declared
option (the declaration is `fat`), so on a non-x86 architecture the delete
fails; and `generate` reads `fPIC` with fallback `True` (emitting
`--with-pic=yes` when fPIC is absent) although the declared default of `fPIC`
is `False`. -/
theorem c3_counterexample :
    ¬ ("enable_fat" ∈ declaredNames) ∧
    (config_options ⟨"Linux", "armv8", "gcc"⟩ default_options).2 =
      some (ConanErr.optionNotFound "enable_fat") ∧
    lookupOpt default_options "fPIC" = some "False" ∧
    "--with-pic=yes" ∈ (generate ⟨"Linux", "armv8", "gcc"⟩ (rmSafe "fPIC" default_options)).1 := by
  refine ⟨by decide, rfl, rfl, by decide⟩

/-- C4 (code bug): the claim says `package_info` publishes the `gmpxx`
component exactly when the C++ support option is enabled.  The declared
option is `cxx`, but `package_info` reads `self.options.enable_cxx`, which is
not declared, so for every configuration — C++ support disabled (defaults) or
enabled — `package_info` fails with an option-not-found error and the `gmpxx`
component is never created. -/
theorem c4_package_info_accesses_undeclared_option :
    ("cxx" ∈ declaredNames) ∧ ¬ ("enable_cxx" ∈ declaredNames) ∧
    (package_info ⟨"Linux", "x86_64", "gcc"⟩ default_options).2 =
      some (ConanErr.optionNotFound "enable_cxx") ∧
    (package_info ⟨"Linux", "x86_64", "gcc"⟩ default_options).1.gmpxx = none ∧
    (package_info ⟨"Linux", "x86_64", "gcc"⟩ options_cxx_enabled).2 =
      some (ConanErr.optionNotFound "enable_cxx") ∧
    (package_info ⟨"Linux", "x86_64", "gcc"⟩ options_cxx_enabled).1.gmpxx = none :=
  ⟨by decide, by decide, rfl, rfl, rfl, rfl⟩

/-- C10 (code bug): the claim says `package_info` always publishes the
`libgmp` component with library list `["gmp"]`, pkg_config name `gmp`, and
top-level pkg_config name `gmp-all-do-not-use`.  Those three settings are
indeed made unconditionally, before any option is read — but the method then
reads the undeclared option `enable_cxx` and aborts with an option-not-found
error for every configuration, so `package_info` never completes. -/
theorem c10_libgmp_metadata_set_then_method_fails :
    (package_info ⟨"Linux", "x86_64", "gcc"⟩ default_options).1.libgmp.libs = ["gmp"] ∧
    (package_info ⟨"Linux", "x86_64", "gcc"⟩ default_options).1.libgmp.pkg_config_name =
      some "gmp" ∧
    (package_info ⟨"Linux", "x86_64", "gcc"⟩ default_options).1.pkg_config_name =
      some "gmp-all-do-not-use" ∧
    (package_info ⟨"Windows", "x86", "msvc"⟩ options_cxx_enabled).1.libgmp.libs = ["gmp"] ∧
    (package_info ⟨"Windows", "x86", "msvc"⟩ options_cxx_enabled).1.libgmp.pkg_config_name =
      some "gmp" ∧
    (package_info ⟨"Windows", "x86", "msvc"⟩ options_cxx_enabled).1.pkg_config_name =
      some "gmp-all-do-not-use" ∧
    (package_info ⟨"Windows", "x86", "msvc"⟩ options_cxx_enabled).2 =
      some (ConanErr.optionNotFound "enable_cxx") :=
  ⟨rfl, rfl, rfl, rfl, rfl, rfl, rfl⟩

/-- C1: `validate` raises `ConanInvalidConfiguration` exactly when the
toolchain is MSVC and the shared option is true; when it does, no external
build command (configure, make) is ever issued, because in the conan
lifecycle `validate` runs before `build`; for every other combination
`validate` raises nothing at all. -/
theorem c1_validate_msvc_shared (ref : String) (s : Settings) (e : OptEnv) (sv : String)
    (h : lookupOpt e "shared" = some sv) :
    (validate ref s e =
        Except.error (ConanErr.invalidConfiguration (invalid_cfg_msg ref)) ↔
      (is_msvc s = true ∧ truthy sv = true)) ∧
    ((is_msvc s = true ∧ truthy sv = true) → cmds_after_validate ref s e = []) ∧
    (¬ (is_msvc s = true ∧ truthy sv = true) → validate ref s e = Except.ok ()) := by
  have hg : getOption e "shared" = Except.ok sv := getOption_eq_ok e "shared" sv h
  by_cases hm : is_msvc s = true
  · by_cases ht : truthy sv = true
    · simp [validate, cmds_after_validate, hg, hm, ht]
    · simp [validate, hg, hm, ht]
  · simp [validate, hg, hm]

/-- Witness for C1 at a concrete MSVC shared configuration. -/
theorem c1_validate_msvc_shared_witness :
    validate "gmp/6.3.0" ⟨"Windows", "x86_64", "msvc"⟩ [("shared", "True")] =
      Except.error (ConanErr.invalidConfiguration (invalid_cfg_msg "gmp/6.3.0")) ∧
    cmds_after_validate "gmp/6.3.0" ⟨"Windows", "x86_64", "msvc"⟩ [("shared", "True")] = [] := by
  have h := c1_validate_msvc_shared "gmp/6.3.0" ⟨"Windows", "x86_64", "msvc"⟩
    [("shared", "True")] "True" rfl
  exact ⟨h.1.mpr ⟨by decide, by decide⟩, h.2.1 ⟨by decide, by decide⟩⟩

/-- C6: `build` issues `configure` before `make`, and issues
`make check` (after `make`) exactly when the `run_checks` option is true;
when `run_checks` is false no check target is ever invoked. -/
theorem c6_build_configure_make_check_order (e : OptEnv) (rc : String)
    (h : lookupOpt e "run_checks" = some rc) :
    (build_cmds e).2 = none ∧
    List.indexOf Cmd.configureCmd (build_cmds e).1 <
      List.indexOf (Cmd.make none) (build_cmds e).1 ∧
    (Cmd.make (some "check") ∈ (build_cmds e).1 ↔ truthy rc = true) ∧
    (truthy rc = true →
      List.indexOf (Cmd.make none) (build_cmds e).1 <
        List.indexOf (Cmd.make (some "check")) (build_cmds e).1) := by
  have hg : getOption e "run_checks" = Except.ok rc := getOption_eq_ok e "run_checks" rc h
  by_cases ht : truthy rc = true
  · refine ⟨?_, ?_, ?_, ?_⟩ <;> simp only [build_cmds, hg, ht, if_pos] <;> decide
  · have ht' : truthy rc = false := by
      cases htv : truthy rc
      · rfl
      · exact absurd htv ht
    refine ⟨?_, ?_, ?_, ?_⟩ <;> simp only [build_cmds, hg, ht', if_neg, Bool.false_eq_true,
      not_false_eq_true] <;> decide

/-- Witness for C6 at the default options (`run_checks` true). -/
theorem c6_build_configure_make_check_order_witness :
    (build_cmds default_options).2 = none ∧
    Cmd.make (some "check") ∈ (build_cmds default_options).1 := by
  have h := c6_build_configure_make_check_order default_options "True" rfl
  exact ⟨h.1, h.2.2.1.mpr (by decide)⟩

/-- C7: an external-tool error escaping `source` or `build` is exactly the
error the tool reported — the escaping error of a `build` run is the error
of one of the commands it invoked, no command is ever invoked twice (no
retry), and `source` returns the fetch result as-is (no handler, no
recovery). -/
theorem c7_external_errors_propagate {ε : Type} (e : OptEnv) (ext : Cmd → Except ε Unit)
    (fr : Except ε Unit) (m : ε)
    (h : (build_run e ext).2 = some (Sum.inr m)) :
    (ext Cmd.configureCmd = Except.error m ∨ ext (Cmd.make none) = Except.error m ∨
      ext (Cmd.make (some "check")) = Except.error m) ∧
    (build_run e ext).1.Nodup ∧
    source_run fr = fr := by
  refine ⟨?_, ?_, rfl⟩
  · cases hc : ext Cmd.configureCmd with
    | error mc =>
      simp only [build_run, hc] at h
      cases h
      exact Or.inl rfl
    | ok u =>
      cases hmk : ext (Cmd.make none) with
      | error mk =>
        simp only [build_run, hc, hmk] at h
        cases h
        exact Or.inr (Or.inl rfl)
      | ok u2 =>
        cases hrc : getOption e "run_checks" with
        | error err => simp [build_run, hc, hmk, hrc] at h
        | ok rc =>
          by_cases ht : truthy rc = true
          · cases hck : ext (Cmd.make (some "check")) with
            | error mck =>
              simp only [build_run, hc, hmk, hrc, ht, if_pos, hck] at h
              cases h
              exact Or.inr (Or.inr rfl)
            | ok u3 => simp [build_run, hc, hmk, hrc, ht, hck] at h
          · simp [build_run, hc, hmk, hrc, ht] at h
  · cases hc : ext Cmd.configureCmd with
    | error mc => simp only [build_run, hc]; decide
    | ok u =>
      cases hmk : ext (Cmd.make none) with
      | error mk => simp only [build_run, hc, hmk]; decide
      | ok u2 =>
        cases hrc : getOption e "run_checks" with
        | error err => simp only [build_run, hc, hmk, hrc]; decide
        | ok rc =>
          by_cases ht : truthy rc = true
          · cases hck : ext (Cmd.make (some "check")) with
            | error mck => simp only [build_run, hc, hmk, hrc, ht, if_pos, hck]; decide
            | ok u3 => simp only [build_run, hc, hmk, hrc, ht, if_pos, hck]; decide
          · simp only [build_run, hc, hmk, hrc, ht, if_neg, Bool.false_eq_true,
              not_false_eq_true]
            decide

/-- Witness for C7 with a failing external configure. -/
theorem c7_external_errors_propagate_witness :
    (ext_fail_configure Cmd.configureCmd = Except.error "configure exited with status 1" ∨
      ext_fail_configure (Cmd.make none) = Except.error "configure exited with status 1" ∨
      ext_fail_configure (Cmd.make (some "check")) =
        Except.error "configure exited with status 1") ∧
    (build_run default_options ext_fail_configure).1.Nodup ∧
    source_run (Except.error "fetch failed" : Except String Unit) =
      Except.error "fetch failed" :=
  c7_external_errors_propagate default_options ext_fail_configure
    (Except.error "fetch failed") "configure exited with status 1" rfl

/-- C8: on Apple platforms `_patch_sources` chmods the fetched configure
script to its old mode or-ed with the owner-execute bit — the new mode has
the execute bit set and agrees with the old mode on every other bit — and
the chmod happens before the external configure runs; on non-Apple platforms
the build performs no chmod at all. -/
theorem c8_configure_script_exec_bit (s : Settings) (st_mode i : Nat) (e : OptEnv)
    (hi : i ≠ 6) :
    Nat.testBit (chmodMode st_mode) 6 = true ∧
    Nat.testBit (chmodMode st_mode) i = Nat.testBit st_mode i ∧
    (is_apple_os s = false →
      (build_actions s st_mode e).1.all (fun a => ! a.isChmod) = true) ∧
    (is_apple_os s = true →
      (build_actions s st_mode e).1.take 3 =
        [Action.applyPatches, Action.chmod (chmodMode st_mode), Action.run Cmd.configureCmd]) := by
  refine ⟨?_, ?_, ?_, ?_⟩
  · show Nat.testBit (st_mode ||| 64) 6 = true
    rw [Nat.testBit_lor]
    have ht : Nat.testBit 64 6 = true := by decide
    simp [ht]
  · show Nat.testBit (st_mode ||| 64) i = Nat.testBit st_mode i
    rw [Nat.testBit_lor]
    have h0 : Nat.testBit 64 i = false := by
      have h2 : Nat.testBit (2 ^ 6) i = false :=
        Nat.testBit_two_pow_of_ne (fun h6 => hi h6.symm)
      simpa using h2
    simp [h0]
  · intro ha
    cases hrc : getOption e "run_checks" with
    | error err =>
      simp [build_actions, build_cmds, patch_sources_actions, hrc, ha, Action.isChmod]
    | ok rc =>
      by_cases ht : truthy rc = true <;>
        simp [build_actions, build_cmds, patch_sources_actions, hrc, ha, ht, Action.isChmod]
  · intro ha
    cases hrc : getOption e "run_checks" with
    | error err =>
      simp [build_actions, build_cmds, patch_sources_actions, hrc, ha]
    | ok rc =>
      by_cases ht : truthy rc = true <;>
        simp [build_actions, build_cmds, patch_sources_actions, hrc, ha, ht]

/-- Witness for C8 at mode 0644 on Macos and on Linux. -/
theorem c8_configure_script_exec_bit_witness :
    Nat.testBit (chmodMode 420) 6 = true ∧
    Nat.testBit (chmodMode 420) 0 = Nat.testBit 420 0 ∧
    (build_actions ⟨"Linux", "x86_64", "gcc"⟩ 420 default_options).1.all
      (fun a => ! a.isChmod) = true ∧
    (build_actions ⟨"Macos", "x86_64", "apple-clang"⟩ 420 default_options).1.take 3 =
      [Action.applyPatches, Action.chmod (chmodMode 420), Action.run Cmd.configureCmd] := by
  have h1 := c8_configure_script_exec_bit ⟨"Linux", "x86_64", "gcc"⟩ 420 0 default_options
    (by decide)
  have h2 := c8_configure_script_exec_bit ⟨"Macos", "x86_64", "apple-clang"⟩ 420 0
    default_options (by decide)
  exact ⟨h1.1, h1.2.1, h1.2.2.1 (by decide), h2.2.2.2 (by decide)⟩

/-! ### Lemmas tracking the fPIC option through config_options and configure -/

theorem delOption_ok_eq (k : String) (e e' : OptEnv) (h : delOption k e = Except.ok e') :
    e' = rmSafe k e := by
  unfold delOption at h
  by_cases hk : hasOption e k = true
  · rw [if_pos hk] at h
    cases h
    rfl
  · rw [if_neg hk] at h
    cases h

theorem delOption_error_absent (k : String) (e : OptEnv) (err : ConanErr)
    (h : delOption k e = Except.error err) : hasOption e k = false := by
  unfold delOption at h
  by_cases hk : hasOption e k = true
  · rw [if_pos hk] at h
    cases h
  · rw [if_neg hk] at h
    cases hv : hasOption e k
    · rfl
    · exact absurd hv hk

theorem hasOption_config_options_arch_false (s : Settings) (e : OptEnv) (k : String)
    (h : hasOption e k = false) : hasOption (config_options_arch s e).1 k = false := by
  unfold config_options_arch
  split
  · exact h
  · cases hd : delOption "enable_fat" e with
    | ok e2 =>
      rw [delOption_ok_eq "enable_fat" e e2 hd]
      exact hasOption_rmSafe_false e "enable_fat" k h
    | error err => exact h

theorem hasOption_config_options_windows (s : Settings) (e : OptEnv) (hw : s.os = "Windows") :
    hasOption (config_options s e).1 "fPIC" = false := by
  unfold config_options
  have hw' : (s.os == "Windows") = true := by simp [hw]
  rw [if_pos hw']
  cases hd : delOption "fPIC" e with
  | ok e1 =>
    apply hasOption_config_options_arch_false
    rw [delOption_ok_eq "fPIC" e e1 hd]
    exact hasOption_rmSafe_self e "fPIC"
  | error err => exact delOption_error_absent "fPIC" e err hd

theorem lookup_config_options_arch (s : Settings) (e : OptEnv) (k : String)
    (h2 : k ≠ "enable_fat") : lookupOpt (config_options_arch s e).1 k = lookupOpt e k := by
  unfold config_options_arch
  split
  · rfl
  · cases hd : delOption "enable_fat" e with
    | ok e2 =>
      rw [delOption_ok_eq "enable_fat" e e2 hd]
      exact lookupOpt_rmSafe_ne e "enable_fat" k h2
    | error err => rfl

theorem lookup_config_options (s : Settings) (e : OptEnv) (k : String)
    (h1 : k ≠ "fPIC") (h2 : k ≠ "enable_fat") :
    lookupOpt (config_options s e).1 k = lookupOpt e k := by
  unfold config_options
  split
  · cases hd : delOption "fPIC" e with
    | ok e1 =>
      rw [lookup_config_options_arch s e1 k h2, delOption_ok_eq "fPIC" e e1 hd]
      exact lookupOpt_rmSafe_ne e "fPIC" k h1
    | error err => rfl
  · exact lookup_config_options_arch s e k h2

theorem hasOption_configure_cxx_false (e : OptEnv) (k : String) (h : hasOption e k = false) :
    hasOption (configure_cxx e).1 k = false := by
  unfold configure_cxx
  cases hg : getOption e "enable_cxx" with
  | ok v => exact h
  | error err => exact h

theorem hasOption_configure_fat_false (e : OptEnv) (k : String)
    (h : hasOption e k = false) :
    hasOption (configure_fat e).1 k = false := by
  unfold configure_fat
  split
  · cases hd : delOption "enable_assembly" e with
    | ok e2 =>
      apply hasOption_configure_cxx_false
      rw [delOption_ok_eq "enable_assembly" e e2 hd]
      exact hasOption_rmSafe_false e "enable_assembly" k h
    | error err => exact h
  · exact hasOption_configure_cxx_false e k h

theorem hasOption_configure_false (e : OptEnv) (h : hasOption e "fPIC" = false) :
    hasOption (configure e).1 "fPIC" = false := by
  unfold configure
  cases hg : getOption e "shared" with
  | error err => exact h
  | ok sh =>
    apply hasOption_configure_fat_false
    by_cases ht : truthy sh = true
    · rw [if_pos ht]
      exact hasOption_rmSafe_self e "fPIC"
    · rw [if_neg ht]
      exact h

theorem configure_shared_removes_fpic (e : OptEnv) (sv : String)
    (h : lookupOpt e "shared" = some sv) (ht : truthy sv = true) :
    hasOption (configure e).1 "fPIC" = false := by
  unfold configure
  rw [getOption_eq_ok e "shared" sv h]
  dsimp only
  rw [if_pos ht]
  exact hasOption_configure_fat_false _ _ (hasOption_rmSafe_self e "fPIC")

/-- C9: after `config_options` and `configure` have run (each statement
executing until the first error of the method, with the environment at that point
retained), the `fPIC` option is absent whenever the shared option is true or
the target OS is Windows.  No later method writes the option set — in the
embedding every subsequent operation (`generate`, `build`, `package_info`)
only reads it — so fPIC is never reintroduced. -/
theorem c9_fpic_absent_after_configure (s : Settings) (e : OptEnv)
    (h : truthyOpt (lookupOpt e "shared") = true ∨ s.os = "Windows") :
    hasOption (configure (config_options s e).1).1 "fPIC" = false := by
  rcases h with hs | hw
  · cases hl : lookupOpt e "shared" with
    | none => rw [hl] at hs; simp [truthyOpt] at hs
    | some sv =>
      rw [hl] at hs
      have hsv : truthy sv = true := by simpa [truthyOpt] using hs
      have hpre : lookupOpt (config_options s e).1 "shared" = some sv := by
        rw [lookup_config_options s e "shared" (by decide) (by decide)]
        exact hl
      exact configure_shared_removes_fpic _ sv hpre hsv
  · exact hasOption_configure_false _ (hasOption_config_options_windows s e hw)

/-- Witness for C9 on Windows at the default options. -/
theorem c9_fpic_absent_after_configure_witness :
    hasOption (configure (config_options ⟨"Windows", "x86_64", "msvc"⟩ default_options).1).1
      "fPIC" = false :=
  c9_fpic_absent_after_configure ⟨"Windows", "x86_64", "msvc"⟩ default_options (Or.inr rfl)

/-! ### Lemmas for the package-id claim -/

theorem hasOption_of_mem_keys (e : OptEnv) (k : String) (h : k ∈ keysOf e) :
    hasOption e k = true := by
  induction e with
  | nil => simp [keysOf] at h
  | cons p t ih =>
    rcases p with ⟨pk, pv⟩
    by_cases hk : k = pk
    · subst hk
      simp [hasOption, lookupOpt]
    · simp [keysOf, hk] at h
      have := ih (by simpa [keysOf] using h)
      simp [hasOption, lookupOpt, hk] at this ⊢
      exact this

theorem rmSafe_eq_of_agree (x : String) (e1 : OptEnv) :
    ∀ (e2 : OptEnv), keysOf e1 = keysOf e2 → (keysOf e1).Nodup →
      (∀ k, k ≠ x → lookupOpt e1 k = lookupOpt e2 k) → rmSafe x e1 = rmSafe x e2 := by
  induction e1 with
  | nil =>
    intro e2 hkeys _ _
    have : e2 = [] := by
      cases e2 with
      | nil => rfl
      | cons q t2 => simp [keysOf] at hkeys
    rw [this]
  | cons p t ih =>
    rcases p with ⟨k, v⟩
    intro e2 hkeys hnod hagree
    cases e2 with
    | nil => simp [keysOf] at hkeys
    | cons q t2 =>
      rcases q with ⟨k2, v2⟩
      simp only [keysOf, List.map_cons, List.cons.injEq] at hkeys
      obtain ⟨hk12, htl⟩ := hkeys
      subst hk12
      simp only [keysOf, List.map_cons, List.nodup_cons] at hnod
      have hagree_tl : ∀ q, q ≠ x → lookupOpt t q = lookupOpt t2 q := by
        intro q hq
        by_cases hqk : q = k
        · subst hqk
          have h1 : lookupOpt t q = none :=
            lookupOpt_eq_none_of_not_mem t q (by simpa [keysOf] using hnod.1)
          have h2 : lookupOpt t2 q = none :=
            lookupOpt_eq_none_of_not_mem t2 q (by
              have : q ∉ t.map Prod.fst := hnod.1
              rw [htl] at this
              simpa [keysOf] using this)
          rw [h1, h2]
        · have hqk' : (q == k) = false := by simp [hqk]
          have := hagree q hq
          simpa [lookupOpt, hqk'] using this
      by_cases hxk : k = x
      · subst hxk
        have hhead : ((k, v).1 != k) = false := by simp
        have hhead2 : ((k, v2).1 != k) = false := by simp
        simp only [rmSafe, List.filter_cons, hhead, hhead2]
        exact ih t2 (by simpa [keysOf] using htl) (by simpa [keysOf] using hnod.2) hagree_tl
      · have hvv : v = v2 := by
          have := hagree k hxk
          simpa [lookupOpt] using this
        subst hvv
        have hhead : ((k, v).1 != x) = true := by simp [bne, hxk]
        simp only [rmSafe, List.filter_cons, hhead, if_pos]
        show (k, v) :: rmSafe x t = (k, v) :: rmSafe x t2
        rw [ih t2 (by simpa [keysOf] using htl) (by simpa [keysOf] using hnod.2) hagree_tl]

/-- C5: `package_id` deletes `run_checks` from the package-id copy of the
options and leaves the contribution of every other option unchanged; two
configurations over the declared options that agree everywhere except
possibly on `run_checks` therefore get the same package identity. -/
theorem c5_package_id_ignores_run_checks (e1 e2 : OptEnv)
    (h1 : keysOf e1 = declaredNames) (h2 : keysOf e2 = declaredNames)
    (hagree : ∀ k, k ≠ "run_checks" → lookupOpt e1 k = lookupOpt e2 k) :
    (package_id e1).1 = (package_id e2).1 ∧
    (package_id e1).2 = none ∧ (package_id e2).2 = none ∧
    (∀ k, k ≠ "run_checks" → lookupOpt (package_id e1).1 k = lookupOpt e1 k) ∧
    lookupOpt (package_id e1).1 "run_checks" = none := by
  have hmem1 : hasOption e1 "run_checks" = true :=
    hasOption_of_mem_keys e1 "run_checks" (by rw [h1]; decide)
  have hmem2 : hasOption e2 "run_checks" = true :=
    hasOption_of_mem_keys e2 "run_checks" (by rw [h2]; decide)
  have hp1 : package_id e1 = (rmSafe "run_checks" e1, none) := by
    unfold package_id delOption
    rw [if_pos hmem1]
  have hp2 : package_id e2 = (rmSafe "run_checks" e2, none) := by
    unfold package_id delOption
    rw [if_pos hmem2]
  have hnod : (keysOf e1).Nodup := by rw [h1]; decide
  refine ⟨?_, ?_, ?_, ?_, ?_⟩
  · rw [hp1, hp2]
    exact rmSafe_eq_of_agree "run_checks" e1 e2 (h1.trans h2.symm) hnod hagree
  · rw [hp1]
  · rw [hp2]
  · intro k hk
    rw [hp1]
    exact lookupOpt_rmSafe_ne e1 "run_checks" k hk
  · rw [hp1]
    exact lookupOpt_rmSafe_self e1 "run_checks"

/-- Witness for C5: the default options and the same options with
`run_checks` off get the same package identity. -/
theorem c5_package_id_ignores_run_checks_witness :
    (package_id default_options).1 = (package_id options_run_checks_off).1 ∧
    lookupOpt (package_id default_options).1 "run_checks" = none := by
  have hagree : ∀ k, k ≠ "run_checks" →
      lookupOpt default_options k = lookupOpt options_run_checks_off k := by
    intro k hk
    rw [show default_options = options_common_base ++ [("run_checks", "True")] from rfl,
      show options_run_checks_off = options_common_base ++ [("run_checks", "False")] from rfl,
      lookupOpt_concat_ne options_common_base "run_checks" "True" k hk,
      lookupOpt_concat_ne options_common_base "run_checks" "False" k hk]
  have h := c5_package_id_ignores_run_checks default_options options_run_checks_off
    (by decide) (by decide) hagree
  exact ⟨h.1, h.2.2.2.2⟩

theorem lookupOpt_eq_none_of_hasOption_false (e : OptEnv) (k : String)
    (h : hasOption e k = false) : lookupOpt e k = none := by
  cases hl : lookupOpt e k with
  | none => rfl
  | some v => simp [hasOption, hl] at h

theorem delOption_error_of_absent (k : String) (e : OptEnv) (h : hasOption e k = false) :
    delOption k e = Except.error (ConanErr.optionNotFound k) := by
  unfold delOption
  rw [if_neg (by simp [h])]

/-- C3 amended: of the two platform-conditioned removals, only `fPIC` is
handled consistently with its declaration: `config_options` deletes `fPIC`,
which is declared, and `generate` reads `fPIC` back — but with fallback
`True` (emitting `--with-pic=yes` when the option is absent), not the
declared default `False`.  For the fat option the names disagree: the
declaration is `fat`, while `config_options` deletes the undeclared name
`enable_fat` — which fails with an option-not-found error on a non-x86
architecture — and `generate` likewise reads the undeclared name
`enable_fat` (fallback `False`, emitting `--enable-fat=no`), so the declared
`fat` option never reaches the configure flags. -/
theorem c3_amended_option_removal_consistency (s : Settings) (e efp : OptEnv)
    (hw : s.os = "Windows")
    (harch : (s.arch == "x86" || s.arch == "x86_64") = false)
    (hfpic : hasOption e "fPIC" = true)
    (hfat : hasOption e "enable_fat" = false)
    (h2fp : hasOption efp "fPIC" = false)
    (h2fat : hasOption efp "enable_fat" = false) :
    ("fPIC" ∈ declaredNames ∧ "fat" ∈ declaredNames ∧ ¬ ("enable_fat" ∈ declaredNames)) ∧
    hasOption (config_options s e).1 "fPIC" = false ∧
    (config_options s e).2 = some (ConanErr.optionNotFound "enable_fat") ∧
    lookupOpt default_options "fPIC" = some "False" ∧
    "--with-pic=yes" ∈ (generate s efp).1 ∧
    "--enable-fat=no" ∈ (generate s efp).1 := by
  have hfp0 : lookupOpt efp "fPIC" = none := lookupOpt_eq_none_of_hasOption_false efp "fPIC" h2fp
  have hfat0 : lookupOpt efp "enable_fat" = none :=
    lookupOpt_eq_none_of_hasOption_false efp "enable_fat" h2fat
  have ha1 : "--with-pic=" ++ yes_no (truthy (getSafeD efp "fPIC" "True")) = "--with-pic=yes" := by
    rw [show getSafeD efp "fPIC" "True" = "True" from by simp [getSafeD, hfp0]]
    decide
  have ha3 : "--enable-fat=" ++ yes_no (truthy (getSafeD efp "enable_fat" "False")) =
      "--enable-fat=no" := by
    rw [show getSafeD efp "enable_fat" "False" = "False" from by simp [getSafeD, hfat0]]
    decide
  refine ⟨by decide, hasOption_config_options_windows s e hw, ?_, rfl, ?_, ?_⟩
  · unfold config_options
    rw [if_pos (by simp [hw])]
    rw [show delOption "fPIC" e = Except.ok (rmSafe "fPIC" e) from by
      unfold delOption; rw [if_pos hfpic]]
    dsimp only
    unfold config_options_arch
    rw [if_neg (by simp [harch])]
    rw [delOption_error_of_absent "enable_fat" (rmSafe "fPIC" e)
      (hasOption_rmSafe_false e "fPIC" "enable_fat" hfat)]
  · cases hg : getOption efp "enable_cxx" with
    | error err =>
      simp only [generate, hg]
      rw [ha1]
      simp
    | ok cxxv =>
      simp only [generate, hg]
      rw [ha1]
      split <;> split <;> simp
  · cases hg : getOption efp "enable_cxx" with
    | error err =>
      simp only [generate, hg]
      rw [ha3]
      simp
    | ok cxxv =>
      simp only [generate, hg]
      rw [ha3]
      split <;> split <;> simp

/-- Witness for the amended C3 claim on Windows/armv8 at the default options. -/
theorem c3_amended_option_removal_consistency_witness :
    (config_options ⟨"Windows", "armv8", "gcc"⟩ default_options).2 =
      some (ConanErr.optionNotFound "enable_fat") ∧
    "--with-pic=yes" ∈
      (generate ⟨"Windows", "armv8", "gcc"⟩ (rmSafe "fPIC" default_options)).1 := by
  have h := c3_amended_option_removal_consistency ⟨"Windows", "armv8", "gcc"⟩ default_options
    (rmSafe "fPIC" default_options) rfl (by decide) (by decide) (by decide) (by decide)
    (by decide)
  exact ⟨h.2.2.1, h.2.2.2.2.1⟩

end GmpSpec
